import Mathlib

/-!
Shallow embedding of `src/app.py` (Spotify Musik-Explorer & Quiz dashboard).

The embedding covers the parts of the program the verified claims touch:
the dataset loader and its feature-scale normalization (`load_data`,
lines 141-211), the highscore store (`load_highscores`, `save_highscores`
and the submission form inside `game_page`, lines 216-229 and 529-539),
the quiz game state machine managed through `st.session_state`
(`game_page`, lines 497-638), and the track-link parsing used to build
the embedded player URL (lines 406-410 and 566-573).

Numeric feature values are modelled as rationals (the Python floats hold
small decimal fractions), guesses and scores as integers, and the
framework's re-render loop as explicit state-transition functions on a
`GameState` record.
-/

namespace App

/-- Python `int(q)` on an exact rational `q`: truncation toward zero
(floor for nonnegative values, ceiling for negative ones). -/
def pyInt (q : ℚ) : ℤ := if 0 ≤ q then ⌊q⌋ else ⌈q⌉

/-! ### Data model (src/app.py, `load_data`, lines 141-211) -/

/-- One item of the playlist fetch after the audio-features merge
(lines 164-195).  `hasTrack`/`hasId` model the
`if not track or not track.get('id'): continue` guard (line 166);
the numeric fields are the merged audio features and popularity as they
come from the API, before any rescaling. -/
structure RawItem where
  hasTrack : Bool
  hasId : Bool
  name : String
  link : String
  display_artists : String
  danceability : ℚ
  energy : ℚ
  valence : ℚ
  popularity : ℚ
deriving DecidableEq

/-- A row of the final dataframe `df_full` as the quiz and explorer pages
read it: name, link, artists and the four feature columns after the
load-time rescaling. -/
structure Song where
  name : String
  link : String
  display_artists : String
  danceability : ℚ
  energy : ℚ
  valence : ℚ
  popularity : ℚ
deriving DecidableEq

/-- Lines 202-205: `for col in ['danceability', 'energy', 'valence']:
df_full[col] *= 100`.  The multiplication is unconditional and
`popularity` is left untouched; there is no observed-maximum check, no
division branch and no clipping. -/
def normalizeRow (r : RawItem) : Song :=
  { name := r.name
    link := r.link
    display_artists := r.display_artists
    danceability := r.danceability * 100
    energy := r.energy * 100
    valence := r.valence * 100
    popularity := r.popularity }

/-- Line 210: the message passed to `st.error` when the surrounding
`try` block fails with exception text `e`. -/
def apiErrorMsg (e : String) : String :=
  "Fehler bei der Verbindung zur Spotify-API: " ++ e

/-- Line 178: the message shown when the playlist yields no tracks. -/
def noTracksMsg : String := "Keine Tracks in der Playlist gefunden."

/-- Line 152: the one data source the loader ever consults. -/
def playlist_id : String := "37i9dQZF1DXcBWIGoYBM5M"

/-- The observable outcome of `load_data`: the returned value
(`none` models Python `None`, `some rows` a dataframe with those rows)
and the list of `st.error` messages emitted while loading. -/
structure LoadOutcome where
  result : Option (List Song)
  errors : List String
deriving DecidableEq

/-- `load_data` (lines 141-211).  The Spotify fetch is the external
collaborator, so it enters as an argument: `.error e` models the API
call raising an exception with text `e` (caught at line 209), `.ok
items` a successful paginated fetch.  On success the item filter
(line 166), the empty-playlist check (line 177) and the feature
rescaling (lines 202-205) are applied in source order. -/
def load_data (fetch : Except String (List RawItem)) : LoadOutcome :=
  match fetch with
  | .error e => { result := none, errors := [apiErrorMsg e] }
  | .ok items =>
    let all_tracks := items.filter (fun t => t.hasTrack && t.hasId)
    if all_tracks.isEmpty then
      { result := some [], errors := [noTracksMsg] }
    else
      { result := some (all_tracks.map normalizeRow), errors := [] }

/-! ### Substring utilities for Python `str.split` (used at lines 408, 567) -/

/-- `leadsWith sep s` is true when `sep` stands at the front of `s`. -/
def leadsWith : List Char → List Char → Bool
  | [], _ => true
  | _ :: _, [] => false
  | a :: as, b :: bs => a == b && leadsWith as bs

/-- `containsSub sep s` is true when `sep` occurs somewhere in `s`. -/
def containsSub (sep : List Char) : List Char → Bool
  | [] => sep.isEmpty
  | c :: rest => leadsWith sep (c :: rest) || containsSub sep rest

/-- The suffix of `s` after the first occurrence of `sep`, or `none`
when `sep` does not occur (matching Python's left-to-right scan). -/
def afterFirstOcc (sep : List Char) : List Char → Option (List Char)
  | [] => if sep = [] then some [] else none
  | c :: rest =>
    if leadsWith sep (c :: rest) then some (List.drop sep.length (c :: rest))
    else afterFirstOcc sep rest

/-- Fuelled iteration of `afterFirstOcc`: repeatedly jump past the next
non-overlapping occurrence of `sep` until none remains.  Each jump
consumes at least one character, so fuel `s.length` always suffices. -/
def afterLastFuel (sep : List Char) : ℕ → List Char → List Char
  | 0, s => s
  | fuel + 1, s =>
    match afterFirstOcc sep s with
    | none => s
    | some t => afterLastFuel sep fuel t

/-- Python `s.split(sep)[-1]` for a nonempty `sep`: the part of `s`
after the last non-overlapping occurrence of `sep` (all of `s` when
`sep` does not occur). -/
def pySplitLast (sep : List Char) (s : List Char) : List Char :=
  afterLastFuel sep s.length s

/-- Python `s.split(sep)[0]` for a nonempty `sep`: the part of `s`
before the first occurrence of `sep` (all of `s` when it does not
occur). -/
def beforeFirstOcc (sep : List Char) : List Char → List Char
  | [] => []
  | c :: rest =>
    if leadsWith sep (c :: rest) then [] else c :: beforeFirstOcc sep rest

/-- Lines 408 and 567: `track_id = link.split('/track/')[-1].split('?')[0]`. -/
def parse_track_id (link : String) : String :=
  ⟨beforeFirstOcc ['?'] (pySplitLast "/track/".data link.data)⟩

/-- Lines 409 and 568: the embeddable-player URL built from the id. -/
def embed_url (track_id : String) : String :=
  "https://open.spotify.com/embed/track/" ++ track_id ++
    "?utm_source=generator&theme=0"

/-- Lines 406-410 (`explorer_page`): for the selected song's link the
page always computes the id and renders the iframe; there is no branch
that detects a malformed link and disables the player, so the result is
always `some` embed URL. -/
def explorer_player (link : String) : Option String :=
  some (embed_url (parse_track_id link))

/-! ### Quiz game state (src/app.py, `game_page`, lines 497-638) -/

/-- The three slider guesses of the guess form (lines 579-581); the form
has no popularity slider. -/
structure Guesses where
  dance : ℤ
  energy : ℤ
  valence : ℤ
deriving DecidableEq

/-- The three attributes iterated by the scoring loop
(`for attr in ['dance', 'energy', 'valence']`, line 600). -/
inductive Attr
  | dance
  | energy
  | valence
deriving DecidableEq

/-- The list literal of line 600. -/
def scoredAttrs : List Attr := [Attr.dance, Attr.energy, Attr.valence]

/-- The feature column each loop attribute reads (lines 591-593). -/
def Song.feat (s : Song) : Attr → ℚ
  | .dance => s.danceability
  | .energy => s.energy
  | .valence => s.valence

/-- The slider value for each loop attribute (line 585). -/
def Guesses.get (g : Guesses) : Attr → ℤ
  | .dance => g.dance
  | .energy => g.energy
  | .valence => g.valence

/-- Lines 590-594: `actual_values = {'dance': int(song['danceability'] /
10), ...}` — the stored feature value divided by 10 and truncated. -/
def actual_values (s : Song) (a : Attr) : ℤ := pyInt (s.feat a / 10)

/-- Lines 601-604 (one loop iteration): `diff = abs(actual - guess);
points = max(0, 100 - diff)`. -/
def pointsFor (s : Song) (g : Guesses) (a : Attr) : ℤ :=
  max 0 (100 - |actual_values s a - g.get a|)

/-- Lines 599-605: the loop accumulating `round_score` over the three
attributes. -/
def round_score (s : Song) (g : Guesses) : ℤ :=
  List.foldl (fun acc a => acc + pointsFor s g a) 0 scoredAttrs

/-- The `st.session_state` fields `game_page` manipulates
(lines 504-510 initialize them). -/
structure GameState where
  game_round : ℕ
  total_score : ℤ
  guess_submitted : Bool
  score_calculated : Bool
  current_song : Song
  guesses : Guesses
  last_round_score : ℤ
deriving DecidableEq

/-- `df_game.sample(1).iloc[0]`: one uniform draw from the dataframe.
Randomness enters as the draw index `d`; for a non-empty pool every
possible outcome is `df.getD (d % df.length)`.  (On an empty dataframe
the real `sample` raises; the theorems about sessions therefore assume
a non-empty pool.) -/
def sample (df : List Song) (d : ℕ) : Song :=
  df.getD (d % df.length) { name := "", link := "", display_artists := ""
                            danceability := 0, energy := 0, valence := 0
                            popularity := 0 }

/-- Lines 517-523: the `Neues Spiel starten!` click — round 1, total
reset to 0, a fresh draw from the full dataframe, both flags cleared. -/
def startGameClick (df : List Song) (d : ℕ) (st : GameState) : GameState :=
  { st with game_round := 1
            total_score := 0
            current_song := sample df d
            guess_submitted := false
            score_calculated := false }

/-- Lines 584-587: submitting the guess form stores the guesses and
sets `guess_submitted`; the score is not touched here. -/
def submitGuess (g : Guesses) (st : GameState) : GameState :=
  { st with guesses := g, guess_submitted := true }

/-- Lines 596-609: the state effect of rendering the post-submission
branch once.  The guarded block (lines 598-609) adds `round_score` to
`total_score`, caches it in `last_round_score` and sets the
`score_calculated` lock; when the lock is already set the render changes
nothing. -/
def renderScored (st : GameState) : GameState :=
  if st.score_calculated then st
  else
    { st with
        total_score := st.total_score + round_score st.current_song st.guesses
        last_round_score := round_score st.current_song st.guesses
        score_calculated := true }

/-- Lines 577-631: one re-render of the in-round part of `game_page`.
Before submission the form branch (lines 578-587) leaves the state
unchanged; after submission the scored branch runs. -/
def renderGame (st : GameState) : GameState :=
  if st.guess_submitted then renderScored st else st

/-- Lines 633-637: the `Nächster Song` click — round counter up, both
flags cleared, a fresh draw from the full dataframe (the drawn set is
not tracked anywhere, so the draw is with replacement). -/
def nextSongClick (df : List Song) (d : ℕ) (st : GameState) : GameState :=
  { st with game_round := st.game_round + 1
            guess_submitted := false
            score_calculated := false
            current_song := sample df d }

/-- One full played round: submit the guesses, render the scored branch,
click `Nächster Song` with draw `d`. -/
def stepRound (df : List Song) (st : GameState) (p : Guesses × ℕ) : GameState :=
  nextSongClick df p.2 (renderGame (submitGuess p.1 st))

/-- The songs presented to the player, round by round: the current song
is shown whenever `1 <= st.session_state.game_round <= 5` (line 563);
each play then advances the machine by `stepRound`.  Once the round
counter leaves `1..5` the quiz body no longer renders and the session
is over. -/
def presentedSongs (df : List Song) : GameState → List (Guesses × ℕ) → List Song
  | _, [] => []
  | st, p :: ps =>
    if 1 ≤ st.game_round ∧ st.game_round ≤ 5 then
      st.current_song :: presentedSongs df (stepRound df st p) ps
    else []

/-! ### Highscore store (src/app.py, lines 213-229 and 529-539) -/

/-- A leaderboard entry as the quiz stores it. -/
structure HSEntry where
  name : String
  score : ℤ
deriving DecidableEq

/-- A Python value inside the score dict of line 534. -/
inductive PyVal
  | str (s : String)
  | int (n : ℤ)
deriving DecidableEq

/-- Line 534 verbatim: `new_score = {'name': player_name, 'score':
st.session_state.total_score}` — the dict has exactly these two keys. -/
def scoreDict (player_name : String) (total_score : ℤ) : List (String × PyVal) :=
  [("name", PyVal.str player_name), ("score", PyVal.int total_score)]

/-- The descending-by-score order used at line 536
(`sorted(..., key=lambda x: x['score'], reverse=True)`):
`a` may stand before `b` iff `b.score ≤ a.score`.  Python's sort is
stable, as is `List.insertionSort`. -/
def hsLe (a b : HSEntry) : Prop := b.score ≤ a.score

instance : DecidableRel hsLe := fun a b => Int.decLe b.score a.score

instance : IsTotal HSEntry hsLe :=
  ⟨fun a b => (Int.le_total b.score a.score).elim Or.inl Or.inr⟩

instance : IsTrans HSEntry hsLe :=
  ⟨fun _ _ _ hab hbc => Int.le_trans hbc hab⟩

/-- Line 536: `sorted(scores, key=lambda x: x['score'], reverse=True)`. -/
def pySortDesc (l : List HSEntry) : List HSEntry := List.insertionSort hsLe l

/-- Modelled from the spec: the `InvalidEntry` error of §7.  The code
in `src/app.py` defines no such error; this type exists only to state
what error (if any) the submission handler raises. -/
inductive HSError
  | invalidEntry
deriving DecidableEq

/-- Lines 529-539: the state effect of clicking `Highscore speichern`
with name `player_name`.  Components: the in-memory
`st.session_state.high_scores` afterwards, what `save_highscores` was
asked to persist (`none` = not called), and the error raised (`none` =
none; the code raises nothing — `if submit_button and player_name:`
simply skips the body when the name is empty). -/
def highscore_submit (high_scores : List HSEntry) (player_name : String)
    (total_score : ℤ) :
    List HSEntry × Option (List HSEntry) × Option HSError :=
  if player_name = "" then (high_scores, none, none)
  else
    let new_score : HSEntry := { name := player_name, score := total_score }
    let updated := (pySortDesc (high_scores ++ [new_score])).take 5
    (updated, some updated, none)

/-- The in-memory list after one submission (first component of
`highscore_submit`). -/
def recordStep (l : List HSEntry) (p : String × ℤ) : List HSEntry :=
  (highscore_submit l p.1 p.2).1

/-! ### Highscore file loading (src/app.py, `load_highscores`, lines 216-224) -/

/-- A JSON value as `json.load` may return it. -/
inductive JsonVal
  | null
  | bool (b : Bool)
  | num (q : ℚ)
  | str (s : String)
  | arr (xs : List JsonVal)
  | obj (fields : List (String × JsonVal))

/-- The exceptions the `except` clause of line 223 names. -/
inductive PyExc
  | jsonDecodeError
  | fileNotFoundError
deriving DecidableEq

/-- The state of `highscores.json` as `load_highscores` can observe it:
absent, present but not valid JSON (`present none`), or present with
parsed value `v` (`present (some v)`).  JSON parsing itself is the
`json` library, an external collaborator, so the file state carries the
parse outcome. -/
inductive FileState
  | absent
  | present (parsed : Option JsonVal)

/-- `json.load(f)` (line 222): the parsed value, or a raised
`JSONDecodeError` when the contents do not parse. -/
def json_load : Option JsonVal → Except PyExc JsonVal
  | some v => .ok v
  | none => .error .jsonDecodeError

/-- `load_highscores` (lines 216-224).  The result is `Except` so that
"never raises" is a provable statement: `.ok` is a normal return,
`.error` would be an exception escaping the function.  The
`os.path.exists` guard (line 218) returns `[]` for an absent file; the
`try`/`except (json.JSONDecodeError, FileNotFoundError)` (lines 220-224)
turns both named exceptions into `[]`. -/
def load_highscores (fs : FileState) : Except PyExc JsonVal :=
  match fs with
  | .absent => .ok (.arr [])
  | .present parsed =>
    match json_load parsed with
    | .ok v => .ok v
    | .error .jsonDecodeError => .ok (.arr [])
    | .error .fileNotFoundError => .ok (.arr [])

/-- Modelled from the spec (§4.2): `score = max(0, 100 − abs(guess −
actual))`, the per-feature scoring formula the spec states.  Declared
separately from the code-side `pointsFor` so the two can be compared. -/
def specScore (guess actual : ℤ) : ℤ := max 0 (100 - |guess - actual|)

/-! ### Helper lemmas -/

theorem pointsFor_nonneg (s : Song) (g : Guesses) (a : Attr) :
    0 ≤ pointsFor s g a :=
  le_max_left _ _

theorem pointsFor_le_100 (s : Song) (g : Guesses) (a : Attr) :
    pointsFor s g a ≤ 100 := by
  have h := abs_nonneg (actual_values s a - g.get a)
  unfold pointsFor
  exact max_le (by norm_num) (by linarith)

theorem round_score_eq (s : Song) (g : Guesses) :
    round_score s g =
      pointsFor s g Attr.dance + pointsFor s g Attr.energy +
        pointsFor s g Attr.valence := by
  simp [round_score, scoredAttrs]

/-! ### Claims -/

/-- C1, counterexample.  The claim says the per-feature score compares
the guess against the canonical 0-100 feature value: at `guess = 70`,
`actual = 55` it predicts a score of 85.  In the code the song whose
canonical danceability is 55 is scored against
`int(song['danceability'] / 10) = 5` (line 591), so the guess 70 earns
`max(0, 100 - abs(5 - 70)) = 35`, not 85. -/
theorem c1_counterexample :
    pointsFor
        { name := "t", link := "", display_artists := ""
          danceability := 55, energy := 0, valence := 0, popularity := 0 }
        { dance := 70, energy := 0, valence := 0 } Attr.dance = 35 ∧
      specScore 70 55 = 85 ∧ (35 : ℤ) ≠ 85 := by
  refine ⟨?_, by decide, by decide⟩
  simp [pointsFor, actual_values, Song.feat, Guesses.get, pyInt]
  norm_num

/-- C1, amended.  The quiz scores exactly the three features
danceability, energy and valence (popularity is not scored: neither the
guess form, lines 579-581, nor the scoring loop, line 600, mention it),
and for each of them the per-feature score is `max(0, 100 − abs(guess −
actual))` where `actual` is the stored feature value divided by 10 and
truncated (`int(song[col] / 10)`), not the canonical 0-100 value
itself.  The spec formula satisfies score(50,50) = 100, score(0,100) =
0 and score(70,55) = 85. -/
theorem c1_per_feature_score (s : Song) (g : Guesses) (a : Attr) :
    pointsFor s g a = specScore (g.get a) (actual_values s a) ∧
      scoredAttrs = [Attr.dance, Attr.energy, Attr.valence] ∧
      specScore 50 50 = 100 ∧ specScore 0 100 = 0 ∧ specScore 70 55 = 85 := by
  refine ⟨?_, rfl, by decide, by decide, by decide⟩
  unfold pointsFor specScore
  rw [abs_sub_comm]

/-- C2, counterexample.  The claim puts the maximum round total at 400
as the sum of four per-feature scores.  A perfect round in the code —
every guess equal to the value the code scores against — earns
3 × 100 = 300 points, not 400: only danceability, energy and valence
are summed (line 600), and the code itself announces `von 300 möglichen
Punkten` (line 631). -/
theorem c2_counterexample :
    round_score
        { name := "t", link := "", display_artists := ""
          danceability := 500, energy := 500, valence := 500
          popularity := 100 }
        { dance := 50, energy := 50, valence := 50 } = 300 ∧
      (300 : ℤ) ≠ 400 := by
  refine ⟨?_, by decide⟩
  simp [round_score, scoredAttrs, pointsFor, actual_values, Song.feat,
    Guesses.get, pyInt]
  norm_num

/-- C2, amended.  For every submitted round the round total is the sum
of the three per-feature scores (danceability, energy, valence), so a
round total is at most 300, and rendering the scored branch adds the
round total to the session running total. -/
theorem c2_round_total (st : GameState)
    (h1 : st.guess_submitted = true) (h2 : st.score_calculated = false) :
    (renderGame st).total_score =
        st.total_score + round_score st.current_song st.guesses ∧
      round_score st.current_song st.guesses =
        pointsFor st.current_song st.guesses Attr.dance +
          pointsFor st.current_song st.guesses Attr.energy +
          pointsFor st.current_song st.guesses Attr.valence ∧
      round_score st.current_song st.guesses ≤ 300 := by
  refine ⟨by simp [renderGame, renderScored, h1, h2], round_score_eq _ _, ?_⟩
  have hd := pointsFor_le_100 st.current_song st.guesses Attr.dance
  have he := pointsFor_le_100 st.current_song st.guesses Attr.energy
  have hv := pointsFor_le_100 st.current_song st.guesses Attr.valence
  rw [round_score_eq]
  linarith

/-- C2, witness: the amended theorem applied to a concrete
post-submission state with a perfect round. -/
theorem c2_round_total_witness :
    (renderGame
          { game_round := 1, total_score := 7, guess_submitted := true
            score_calculated := false
            current_song :=
              { name := "t", link := "", display_artists := ""
                danceability := 500, energy := 500, valence := 500
                popularity := 100 }
            guesses := { dance := 50, energy := 50, valence := 50 }
            last_round_score := 0 }).total_score =
      7 +
        round_score
          { name := "t", link := "", display_artists := ""
            danceability := 500, energy := 500, valence := 500
            popularity := 100 }
          { dance := 50, energy := 50, valence := 50 } :=
  (c2_round_total _ rfl rfl).1

theorem sample_mem (df : List Song) (d : ℕ) (h : df ≠ []) :
    sample df d ∈ df := by
  have hpos : 0 < df.length := List.length_pos.mpr h
  have hlt : d % df.length < df.length := Nat.mod_lt _ hpos
  unfold sample
  rw [List.getD_eq_getElem df _ hlt]
  exact List.getElem_mem hlt

/-- C3, counterexample.  Over an initial pool with a single track the
claim predicts a completed session of `min(5, 1) = 1` round with no
track drawn twice.  The code keeps no drawn-set and redraws from the
full dataframe every round (lines 520 and 637), so a session over a
one-track pool presents the same track in all five rounds: five rounds
are played, not one, and every pair of rounds repeats the track. -/
theorem c3_counterexample :
    presentedSongs
          [{ name := "t", link := "", display_artists := ""
             danceability := 0, energy := 0, valence := 0, popularity := 0 }]
          (startGameClick
            [{ name := "t", link := "", display_artists := ""
               danceability := 0, energy := 0, valence := 0, popularity := 0 }] 0
            { game_round := 0, total_score := 0, guess_submitted := false
              score_calculated := false
              current_song :=
                { name := "", link := "", display_artists := ""
                  danceability := 0, energy := 0, valence := 0
                  popularity := 0 }
              guesses := { dance := 0, energy := 0, valence := 0 }
              last_round_score := 0 })
          [(⟨0, 0, 0⟩, 0), (⟨0, 0, 0⟩, 0), (⟨0, 0, 0⟩, 0), (⟨0, 0, 0⟩, 0),
            (⟨0, 0, 0⟩, 0)] =
        List.replicate 5
          { name := "t", link := "", display_artists := ""
            danceability := 0, energy := 0, valence := 0, popularity := 0 } ∧
      (5 : ℕ) ≠ min 5 1 ∧
      ¬ (List.replicate 5
          ({ name := "t", link := "", display_artists := ""
             danceability := 0, energy := 0, valence := 0,
             popularity := 0 } : Song)).Nodup := by
  refine ⟨by decide, by decide, by decide⟩

/-- C3, amended.  Every session started over a non-empty pool plays
exactly 5 rounds regardless of the pool size, and every presented track
is drawn from the full pool each round (with replacement — the code
keeps no drawn-set, so tracks can repeat and the pool is never
exhausted; there is no early termination). -/
theorem c3_session_rounds (df : List Song) (d0 : ℕ) (st0 : GameState)
    (p1 p2 p3 p4 p5 : Guesses × ℕ) (h : df ≠ []) :
    (presentedSongs df (startGameClick df d0 st0)
        [p1, p2, p3, p4, p5]).length = 5 ∧
      ∀ s ∈ presentedSongs df (startGameClick df d0 st0)
          [p1, p2, p3, p4, p5], s ∈ df := by
  have hexp :
      presentedSongs df (startGameClick df d0 st0) [p1, p2, p3, p4, p5] =
        [sample df d0, sample df p1.2, sample df p2.2, sample df p3.2,
          sample df p4.2] := by
    simp [presentedSongs, stepRound, nextSongClick, renderGame, renderScored,
      submitGuess, startGameClick]
  rw [hexp]
  refine ⟨rfl, ?_⟩
  intro s hs
  simp only [List.mem_cons, List.not_mem_nil, or_false] at hs
  rcases hs with h1 | h1 | h1 | h1 | h1 <;> exact h1 ▸ sample_mem df _ h

/-- C3, witness: the amended theorem applied to a concrete two-track
pool and five concrete plays. -/
theorem c3_session_rounds_witness :
    (presentedSongs
        [{ name := "t", link := "", display_artists := ""
           danceability := 0, energy := 0, valence := 0, popularity := 0 },
         { name := "u", link := "", display_artists := ""
           danceability := 0, energy := 0, valence := 0, popularity := 0 }]
        (startGameClick
          [{ name := "t", link := "", display_artists := ""
             danceability := 0, energy := 0, valence := 0, popularity := 0 },
           { name := "u", link := "", display_artists := ""
             danceability := 0, energy := 0, valence := 0, popularity := 0 }] 0
          { game_round := 0, total_score := 0, guess_submitted := false
            score_calculated := false
            current_song :=
              { name := "", link := "", display_artists := ""
                danceability := 0, energy := 0, valence := 0, popularity := 0 }
            guesses := { dance := 0, energy := 0, valence := 0 }
            last_round_score := 0 })
        [(⟨0, 0, 0⟩, 1), (⟨0, 0, 0⟩, 0), (⟨0, 0, 0⟩, 1), (⟨0, 0, 0⟩, 0),
          (⟨0, 0, 0⟩, 1)]).length = 5 :=
  (c3_session_rounds _ 0 _ _ _ _ _ _ (by decide)).1

/-- C5.  Submitting a guess is idempotent with respect to the session
total: after the guess form sets `guess_submitted` (lines 584-587), any
positive number of re-renders of the scored branch adds the round score
to the running total exactly once — the `score_calculated` lock
(lines 598-609) makes every render after the first a no-op, so the
state after `n + 1` renders equals the state after one render. -/
theorem c5_submit_idempotent (st : GameState) (g : Guesses) (n : ℕ)
    (h : st.score_calculated = false) :
    (renderGame^[n + 1] (submitGuess g st)).total_score =
        st.total_score + round_score st.current_song g ∧
      renderGame^[n + 1] (submitGuess g st) =
        renderGame (submitGuess g st) := by
  have h1 : renderGame (submitGuess g st) =
      { st with
          guesses := g
          guess_submitted := true
          total_score := st.total_score + round_score st.current_song g
          last_round_score := round_score st.current_song g
          score_calculated := true } := by
    simp [renderGame, renderScored, submitGuess, h]
  have hfix : ∀ m : ℕ, renderGame^[m] (renderGame (submitGuess g st)) =
      renderGame (submitGuess g st) := by
    intro m
    apply Function.iterate_fixed
    rw [h1]
    simp [renderGame, renderScored]
  have hiter : renderGame^[n + 1] (submitGuess g st) =
      renderGame (submitGuess g st) := by
    rw [Function.iterate_succ_apply]
    exact hfix n
  exact ⟨by rw [hiter, h1], hiter⟩

/-- C5, witness: one submission followed by three renders of the scored
branch, from a concrete fresh round state. -/
theorem c5_submit_idempotent_witness :
    (renderGame^[3]
        (submitGuess { dance := 50, energy := 50, valence := 50 }
          { game_round := 1, total_score := 40, guess_submitted := false
            score_calculated := false
            current_song :=
              { name := "t", link := "", display_artists := ""
                danceability := 500, energy := 500, valence := 500
                popularity := 100 }
            guesses := { dance := 0, energy := 0, valence := 0 }
            last_round_score := 0 })).total_score =
      40 +
        round_score
          { name := "t", link := "", display_artists := ""
            danceability := 500, energy := 500, valence := 500
            popularity := 100 }
          { dance := 50, energy := 50, valence := 50 } :=
  (c5_submit_idempotent _ _ 2 rfl).1

/-- C4, counterexample.  The claim says a feature column is multiplied
by 100 only when its observed maximum is at most 1, and that after
normalization every value lies in [0, 100].  The code multiplies
unconditionally and never clips (lines 202-205): an item whose
danceability already sits on the 0-100 scale (value 80, so the column
maximum is 80 > 1) is still multiplied, ending at 8000, far outside
[0, 100]. -/
theorem c4_counterexample :
    (normalizeRow
        { hasTrack := true, hasId := true, name := "t", link := ""
          display_artists := "", danceability := 80, energy := 0
          valence := 0, popularity := 0 }).danceability = 8000 ∧
      ¬ (normalizeRow
          { hasTrack := true, hasId := true, name := "t", link := ""
            display_artists := "", danceability := 80, energy := 0
            valence := 0, popularity := 0 }).danceability ≤ 100 ∧
      (load_data (.ok
          [{ hasTrack := true, hasId := true, name := "t", link := ""
             display_artists := "", danceability := 80, energy := 0
             valence := 0, popularity := 0 }])).result =
        some [normalizeRow
          { hasTrack := true, hasId := true, name := "t", link := ""
            display_artists := "", danceability := 80, energy := 0
            valence := 0, popularity := 0 }] := by
  refine ⟨?_, ?_, by simp [load_data]⟩
  · norm_num [normalizeRow]
  · norm_num [normalizeRow]

/-- C4, amended.  The loader multiplies the danceability, energy and
valence columns by 100 unconditionally (assuming a 0-1 source scale)
and leaves popularity untouched; there is no observed-maximum
detection, no division branch and no clipping.  When the source row
holds 0-1 fractions for the three features and a 0-100 popularity —
the scales the Spotify API delivers — all four normalized values lie
in [0, 100]. -/
theorem c4_normalize (r : RawItem)
    (hd0 : 0 ≤ r.danceability) (hd1 : r.danceability ≤ 1)
    (he0 : 0 ≤ r.energy) (he1 : r.energy ≤ 1)
    (hv0 : 0 ≤ r.valence) (hv1 : r.valence ≤ 1)
    (hp0 : 0 ≤ r.popularity) (hp1 : r.popularity ≤ 100) :
    (normalizeRow r).danceability = r.danceability * 100 ∧
      (normalizeRow r).energy = r.energy * 100 ∧
      (normalizeRow r).valence = r.valence * 100 ∧
      (normalizeRow r).popularity = r.popularity ∧
      0 ≤ (normalizeRow r).danceability ∧
      (normalizeRow r).danceability ≤ 100 ∧
      0 ≤ (normalizeRow r).energy ∧ (normalizeRow r).energy ≤ 100 ∧
      0 ≤ (normalizeRow r).valence ∧ (normalizeRow r).valence ≤ 100 ∧
      0 ≤ (normalizeRow r).popularity ∧
      (normalizeRow r).popularity ≤ 100 := by
  refine ⟨rfl, rfl, rfl, rfl, ?_, ?_, ?_, ?_, ?_, ?_, hp0, hp1⟩ <;>
    simp only [normalizeRow] <;> nlinarith

/-- C4, witness: the amended theorem applied to a row holding API-scale
values. -/
theorem c4_normalize_witness :
    (normalizeRow
        { hasTrack := true, hasId := true, name := "t", link := ""
          display_artists := "", danceability := 1 / 2, energy := 0
          valence := 1, popularity := 73 }).danceability =
      (1 / 2 : ℚ) * 100 :=
  (c4_normalize _ (by norm_num) (by norm_num) (by norm_num) (by norm_num)
    (by norm_num) (by norm_num) (by norm_num) (by norm_num)).1

/-- C6, counterexample.  The claim says `record` appends an entry
carrying the current timestamp.  The dict built at line 534 has exactly
the keys `name` and `score`; no timestamp is stored anywhere. -/
theorem c6_counterexample :
    List.lookup "timestamp" (scoreDict "alice" 10) = none ∧
      List.lookup "name" (scoreDict "alice" 10) = some (PyVal.str "alice") ∧
      List.lookup "score" (scoreDict "alice" 10) = some (PyVal.int 10) := by
  refine ⟨by decide, by decide, by decide⟩

/-- C6, amended.  For a non-empty name, recording appends a
(name, score) entry — with no timestamp — re-sorts all entries
descending by score (stably, like Python sorted with reverse=True),
truncates to the top 5 and persists exactly that truncated list while
raising no error; recording the six scores [10, 90, 50, 30, 70, 20]
with distinct names into an empty store leaves exactly the scores
[90, 70, 50, 30, 20]. -/
theorem c6_record (store : List HSEntry) (name : String) (score : ℤ)
    (h : name ≠ "") :
    List.Sorted hsLe (highscore_submit store name score).1 ∧
      (highscore_submit store name score).1.length ≤ 5 ∧
      (highscore_submit store name score).2.1 =
        some (highscore_submit store name score).1 ∧
      (highscore_submit store name score).2.2 = none ∧
      (List.foldl recordStep []
          [("a", 10), ("b", 90), ("c", 50), ("d", 30), ("e", 70),
            ("f", 20)]).map (fun e => e.score) = [90, 70, 50, 30, 20] := by
  have hstep : highscore_submit store name score =
      ((pySortDesc (store ++ [{ name := name, score := score }])).take 5,
        some ((pySortDesc
          (store ++ [{ name := name, score := score }])).take 5), none) := by
    simp [highscore_submit, h]
  refine ⟨?_, ?_, ?_, ?_, by decide⟩
  · rw [hstep]
    exact ((List.sorted_insertionSort hsLe _).sublist (List.take_sublist _ _))
  · rw [hstep]
    exact List.length_take_le _ _
  · rw [hstep]
  · rw [hstep]

/-- C6, witness: the amended theorem applied to a concrete store and a
non-empty name. -/
theorem c6_record_witness :
    (List.foldl recordStep []
        [("a", 10), ("b", 90), ("c", 50), ("d", 30), ("e", 70),
          ("f", 20)]).map (fun e => e.score) = [90, 70, 50, 30, 20] :=
  (c6_record [] "a" 10 (by decide)).2.2.2.2

/-- C7, counterexample.  The claim says an empty-name submission fails
with an `InvalidEntry` error.  Clicking the save button with an empty
name runs `if submit_button and player_name:` (line 533) whose body is
simply skipped: the store is unchanged, nothing is persisted, and no
error of any kind — in particular no `InvalidEntry` — is raised (the
error component is `none`, not `some HSError.invalidEntry`). -/
theorem c7_counterexample :
    highscore_submit [] "" 100 = ([], none, none) ∧
      (highscore_submit [] "" 100).2.2 ≠ some HSError.invalidEntry := by
  refine ⟨by simp [highscore_submit], by simp [highscore_submit]⟩

/-- C7, amended.  An empty-name submission is silently ignored: the
in-memory store is returned unchanged, `save_highscores` is not called,
and no error is raised — the user is left on the form, but no
`InvalidEntry` failure is signaled. -/
theorem c7_empty_name (store : List HSEntry) (score : ℤ) :
    highscore_submit store "" score = (store, none, none) := by
  simp [highscore_submit]

/-- C8, counterexample.  The claim says a total load failure surfaces a
`DataUnavailable` error listing the attempted locations.  When the API
fetch raises, the code emits a single connection-error message built
from the exception text and returns `None` (lines 209-211); no
`DataUnavailable` value exists in the program, and the message does not
name the one location the loader consults (the playlist id): the code
also never takes an ordered list of candidate sources to try. -/
theorem c8_counterexample :
    load_data (.error "Timeout") =
        { result := none, errors := [apiErrorMsg "Timeout"] } ∧
      containsSub playlist_id.data (apiErrorMsg "Timeout").data = false := by
  refine ⟨rfl, by decide⟩

/-- C8, amended.  The loader consults a single source (the Spotify API
playlist); there is no ordered candidate list.  It never silently
yields an empty result: whenever the returned value is `None` or an
empty dataframe, at least one error message was emitted; and a load
that emits no error succeeded on that single source, returning the
filtered, normalized rows of the fetch. -/
theorem c8_load_signals (fetch : Except String (List RawItem)) :
    ((load_data fetch).result.getD [] = [] →
        (load_data fetch).errors ≠ []) ∧
      ((load_data fetch).errors = [] →
        ∃ items, fetch = .ok items ∧
          (load_data fetch).result =
            some ((items.filter fun t =>
              t.hasTrack && t.hasId).map normalizeRow) ∧
          (items.filter fun t => t.hasTrack && t.hasId) ≠ []) := by
  match fetch with
  | .error e =>
    refine ⟨fun _ => by simp [load_data], fun hc => ?_⟩
    simp [load_data] at hc
  | .ok items =>
    by_cases hemp : (items.filter fun t => t.hasTrack && t.hasId).isEmpty
    · refine ⟨fun _ => by simp [load_data, hemp], fun hc => ?_⟩
      simp [load_data, hemp] at hc
    · refine ⟨fun hres => ?_, fun _ => ⟨items, rfl, by simp [load_data, hemp], ?_⟩⟩
      · exfalso
        have hr : (load_data (.ok items)).result =
            some ((items.filter fun t =>
              t.hasTrack && t.hasId).map normalizeRow) := by
          simp [load_data, hemp]
        rw [hr] at hres
        simp only [Option.getD_some, List.map_eq_nil_iff] at hres
        rw [hres] at hemp
        simp at hemp
      · intro hnil
        rw [hnil] at hemp
        simp at hemp

/-- C8, witness: the amended theorem applied to a failing fetch — the
failure is signaled, not silent. -/
theorem c8_load_signals_witness :
    (load_data (.error "Timeout")).errors ≠ [] :=
  (c8_load_signals (.error "Timeout")).1 rfl

theorem afterFirstOcc_eq_none (sep : List Char) (s : List Char)
    (h : containsSub sep s = false) : afterFirstOcc sep s = none := by
  induction s with
  | nil =>
    simp [containsSub, List.isEmpty_iff] at h
    simp [afterFirstOcc, h]
  | cons c rest ih =>
    simp only [containsSub, Bool.or_eq_false_iff] at h
    simp [afterFirstOcc, h.1, ih h.2]

theorem afterLastFuel_no_occ (sep : List Char) (s : List Char) (fuel : ℕ)
    (h : afterFirstOcc sep s = none) : afterLastFuel sep fuel s = s := by
  cases fuel with
  | zero => rfl
  | succ m => simp [afterLastFuel, h]

/-- C9, counterexample.  The claim says a link value without `/track/`
yields a `MalformedLink` condition that disables the player.  Python
`split` on an absent separator returns the whole string, so the code
extracts the entire link as the "track id" and still renders the player
iframe with that junk id substituted into the embed URL — nothing is
detected and nothing is disabled. -/
theorem c9_counterexample :
    parse_track_id "https://example.com/nope" = "https://example.com/nope" ∧
      explorer_player "https://example.com/nope" =
        some (embed_url "https://example.com/nope") ∧
      explorer_player "https://example.com/nope" ≠ none := by
  refine ⟨by decide, ?_, ?_⟩
  · have h : parse_track_id "https://example.com/nope" =
        "https://example.com/nope" := by decide
    simp [explorer_player, h]
  · simp [explorer_player]

/-- C9, amended.  Link parsing takes the substring after the last
`/track/` and before the first `?`: the example URI yields track id
`abc123`.  For a link that does not contain `/track/` the extracted id
is the link itself truncated at the first `?` — no `MalformedLink`
condition exists — and the explorer page always renders the player
embed, whatever the link value; no fault is raised on string links. -/
theorem c9_link_parsing (link : String) :
    parse_track_id "https://open.spotify.com/track/abc123?si=xyz" =
        "abc123" ∧
      (explorer_player link).isSome = true ∧
      (containsSub "/track/".data link.data = false →
        parse_track_id link = ⟨beforeFirstOcc ['?'] link.data⟩) := by
  refine ⟨by decide, rfl, fun h => ?_⟩
  unfold parse_track_id pySplitLast
  rw [afterLastFuel_no_occ _ _ _ (afterFirstOcc_eq_none _ _ h)]

/-- C9, witness: the amended theorem applied to a link without the
`/track/` segment. -/
theorem c9_link_parsing_witness :
    parse_track_id "nolink" = ⟨beforeFirstOcc ['?'] "nolink".data⟩ :=
  (c9_link_parsing "nolink").2.2 (by decide)

/-- C10.  `load_highscores` is total and never raises for every
observable state of the highscore file: it returns the parsed value
when the file holds valid JSON, and the empty list both when the file
is missing (the `os.path.exists` guard) and when its contents fail to
parse (the `except json.JSONDecodeError` clause). -/
theorem c10_load_highscores_total (fs : FileState) (v : JsonVal) :
    (∃ w, load_highscores fs = .ok w) ∧
      load_highscores (.present (some v)) = .ok v ∧
      load_highscores .absent = .ok (.arr []) ∧
      load_highscores (.present none) = .ok (.arr []) := by
  refine ⟨?_, rfl, rfl, rfl⟩
  match fs with
  | .absent => exact ⟨.arr [], rfl⟩
  | .present (some w) => exact ⟨w, rfl⟩
  | .present none => exact ⟨.arr [], rfl⟩

end App
